import Mathlib

/-!
Formal model of the interview session core (`src/interviewers/core`):
session documents, phase transitions, metric aggregation and exit-criteria
evaluation, together with theorems about their behaviour.

Python dictionaries of metric values are modelled as association lists from
string keys to rational numbers (floating point idealised as `Rat`); MongoDB
field updates (`$set` with dot paths) become functional record updates.
Ambient facts of the running process are explicit parameters:
`pytestLoaded` models `"pytest" in sys.modules`, `dbOk` models whether the
sessions collection is reachable, `now` models `datetime.now().isoformat()`.
-/

namespace Interviewers

/-- A metrics document: string-keyed rational values, in insertion order. -/
abbrev Metrics := List (String × Rat)

/-- First-match lookup in a metrics document (Python `dict.__getitem__`). -/
def dlookup : Metrics → String → Option Rat
  | [], _ => none
  | kv :: tl, k => if kv.1 = k then some kv.2 else dlookup tl k

/-- Lookup with a default (Python `dict.get(k, d)`). -/
def getD (m : Metrics) (k : String) (d : Rat) : Rat :=
  (dlookup m k).getD d

/-- Set a key to a value, replacing an existing entry in place or appending a
new one (Python `dict.__setitem__` / MongoDB `$set` of one field). -/
def setKey : Metrics → String → Rat → Metrics
  | [], k, v => [(k, v)]
  | kv :: tl, k, v => if kv.1 = k then (k, v) :: tl else kv :: setKey tl k v

/-- Apply a list of key/value updates in order (Python `dict.update`, or one
MongoDB `$set` document applied field by field). -/
def applyUpdates (base : Metrics) (upds : Metrics) : Metrics :=
  upds.foldl (fun acc kv => setKey acc kv.1 kv.2) base

/-- The five interview phases, in their fixed order. -/
inductive Phase
  | pre_interview
  | introduction
  | technical
  | behavioral
  | wrap_up
  deriving DecidableEq, Repr

/-- String name of a phase, as stored in the session document. -/
def phaseName : Phase → String
  | .pre_interview => "pre_interview"
  | .introduction => "introduction"
  | .technical => "technical"
  | .behavioral => "behavioral"
  | .wrap_up => "wrap_up"

/-- The `PHASE_SEQUENCE` list from `phase_manager.py`. -/
def phaseSequence : List Phase :=
  [.pre_interview, .introduction, .technical, .behavioral, .wrap_up]

/-- Index of a phase in the fixed sequence (`PHASE_SEQUENCE.index`). -/
def phaseIndex : Phase → Nat
  | .pre_interview => 0
  | .introduction => 1
  | .technical => 2
  | .behavioral => 3
  | .wrap_up => 4

/-- Parse a phase name; `none` for strings outside the fixed sequence. -/
def phaseOfString (x : String) : Option Phase :=
  if x = "pre_interview" then some .pre_interview
  else if x = "introduction" then some .introduction
  else if x = "technical" then some .technical
  else if x = "behavioral" then some .behavioral
  else if x = "wrap_up" then some .wrap_up
  else none

/-- The immediately preceding phase (`PHASE_SEQUENCE[current_idx - 1]`); the
first phase is mapped to itself, but is never consulted there. -/
def prevPhase : Phase → Phase
  | .pre_interview => .pre_interview
  | .introduction => .pre_interview
  | .technical => .introduction
  | .behavioral => .technical
  | .wrap_up => .behavioral

/-- One phase sub-document of a session. -/
structure PhaseRecord where
  status : String
  start_time : Option String
  end_time : Option String
  flags : List (String × Bool)
  skip_reason : Option String
  deriving DecidableEq, Repr

/-- The `phases` sub-document: one record per fixed phase name. -/
structure Phases where
  pre_interview : PhaseRecord
  introduction : PhaseRecord
  technical : PhaseRecord
  behavioral : PhaseRecord
  wrap_up : PhaseRecord
  deriving DecidableEq, Repr

/-- Read the record of one phase (`session_data["phases"][phase]`). -/
def Phases.get (ph : Phases) : Phase → PhaseRecord
  | .pre_interview => ph.pre_interview
  | .introduction => ph.introduction
  | .technical => ph.technical
  | .behavioral => ph.behavioral
  | .wrap_up => ph.wrap_up

/-- Replace the record of one phase. -/
def Phases.set (ph : Phases) : Phase → PhaseRecord → Phases
  | .pre_interview, r => { ph with pre_interview := r }
  | .introduction, r => { ph with introduction := r }
  | .technical, r => { ph with technical := r }
  | .behavioral, r => { ph with behavioral := r }
  | .wrap_up, r => { ph with wrap_up := r }

/-- One agent sub-document. Fields are optional because a MongoDB `$set` with
a dot path can create an agent document holding only the field written. -/
structure AgentRecord where
  status : Option String
  metrics : Metrics
  last_action : Option String
  last_action_time : Option String
  deriving DecidableEq, Repr

/-- The `eligibility_checks` sub-document. -/
structure EligibilityChecks where
  work_authorization : Bool
  remote_work : Bool
  relocation : Bool
  travel : Bool
  deriving DecidableEq, Repr

/-- The `exit_criteria` sub-document. -/
structure ExitCriteria where
  immediate_flags : List String
  performance_threshold : Option Rat
  completion_status : String
  exit_type : Option String
  exit_reason : Option String
  deriving DecidableEq, Repr

/-- A full session document, as inserted and mutated by `SessionManager`. -/
structure Session where
  candidate_id : String
  start_time : String
  end_time : Option String
  current_phase : String
  phases : Phases
  agents : List (String × AgentRecord)
  responses : List (String × List String)
  metrics : Metrics
  eligibility_checks : EligibilityChecks
  exit_criteria : ExitCriteria
  deriving DecidableEq, Repr

/-- The decision value returned by `check_exit_criteria` when an exit is
warranted. -/
structure ExitDecision where
  exit_type : String
  reason : String
  deriving DecidableEq, Repr

/-- A fresh pending phase record with the given completion-flag names, all
initialised to `False`, as in `create_session`. -/
def pendingPhase (flagNames : List String) : PhaseRecord :=
  { status := "pending"
    start_time := none
    end_time := none
    flags := flagNames.map (fun n => (n, false))
    skip_reason := none }

/-- A fresh inactive agent record, as in `create_session`. -/
def inactiveAgent : AgentRecord :=
  { status := some "inactive", metrics := [], last_action := none,
    last_action_time := none }

/-- The ten agent names registered by `create_session`, in order. -/
def agentNames : List String :=
  ["consent_compliance", "technical_evaluation", "behavioral_assessment",
   "time_management", "orchestrator", "feedback_compilation",
   "question_management", "transition_coordinator", "emergency_handler",
   "metrics_collection"]

/-- The document inserted by `SessionManager.create_session` for a candidate,
with `now` standing for `datetime.now().isoformat()`. -/
def createSession (candidate_id : String) (now : String) : Session :=
  { candidate_id := candidate_id
    start_time := now
    end_time := none
    current_phase := "pre_interview"
    phases :=
      { pre_interview :=
          pendingPhase ["room_created", "system_initialized", "metrics_prepared"]
        introduction := pendingPhase ["consent_obtained", "background_verified"]
        technical :=
          pendingPhase ["system_design_complete", "coding_challenge_complete",
                        "architecture_assessment_complete"]
        behavioral :=
          pendingPhase ["leadership_assessed", "problem_solving_assessed",
                        "collaboration_assessed"]
        wrap_up := pendingPhase ["questions_addressed", "next_steps_provided"] }
    agents := agentNames.map (fun n => (n, inactiveAgent))
    responses := []
    metrics :=
      [("technical_score", 0), ("behavioral_score", 0), ("cultural_score", 0),
       ("overall_score", 0), ("response_quality", 0), ("time_management", 0),
       ("technical_depth", 0), ("system_design_depth", 0), ("coding_depth", 0),
       ("architecture_depth", 0), ("behavioral_indicators", 0),
       ("leadership_indicators", 0), ("problem_solving_indicators", 0),
       ("collaboration_indicators", 0)]
    eligibility_checks :=
      { work_authorization := false, remote_work := false, relocation := false,
        travel := false }
    exit_criteria :=
      { immediate_flags := [], performance_threshold := none,
        completion_status := "pending", exit_type := none, exit_reason := none } }

/-- The three weighted core score keys recognised by `update_metrics`. -/
def coreKeys : List String :=
  ["technical_score", "behavioral_score", "cultural_score"]

/-- The real-time assessment keys recognised by `update_metrics`; any other
incoming key outside `coreKeys` is silently dropped. -/
def realtimeKeys : List String :=
  ["response_quality", "time_management", "technical_depth",
   "system_design_depth", "coding_depth", "architecture_depth",
   "behavioral_indicators", "leadership_indicators",
   "problem_solving_indicators", "collaboration_indicators"]

/-- The weighted overall score computed by `update_metrics`:
`technical*0.5 + behavioral*0.3 + cultural*0.2`, missing fields read as 0. -/
def overallFrom (mm : Metrics) : Rat :=
  getD mm "technical_score" 0 * mkRat 1 2 + getD mm "behavioral_score" 0 * mkRat 3 10
    + getD mm "cultural_score" 0 * mkRat 1 5

/-- The merged value of one core score: the incoming update if it carries the
key, otherwise the previously stored value (0 if absent). -/
def mergedScore (s : Session) (m : Metrics) (k : String) : Rat :=
  match dlookup m k with
  | some v => v
  | none => getD s.metrics k 0

/-- MongoDB `$set` of `agents.<a>.metrics`: replaces the metrics sub-map of
an existing agent wholesale, or creates a bare agent document. -/
def setAgentMetrics (ags : List (String × AgentRecord)) (a : String)
    (m : Metrics) : List (String × AgentRecord) :=
  if ags.any (fun e => e.1 = a) then
    ags.map (fun e => if e.1 = a then (a, { e.2 with metrics := m }) else e)
  else
    ags ++ [(a, { status := none, metrics := m, last_action := none,
                  last_action_time := none })]

/-- Model of `SessionManager.start_phase`: marks the phase active, stamps its start
time and sets `current_phase`. The boolean mirrors `modified_count > 0` of
the underlying `$set` (false when nothing changed). -/
def SessionManager.start_phase (now : String) (p : Phase) (s : Session) :
    Session × Bool :=
  let s2 :=
    { s with
      phases := s.phases.set p
        { s.phases.get p with status := "active", start_time := some now }
      current_phase := phaseName p }
  (s2, decide (s2 ≠ s))

/-- Model of `SessionManager.end_phase`: marks the phase completed and stamps its end
time. The boolean mirrors `modified_count > 0`. -/
def SessionManager.end_phase (now : String) (p : Phase) (s : Session) :
    Session × Bool :=
  let s2 :=
    { s with
      phases := s.phases.set p
        { s.phases.get p with status := "completed", end_time := some now } }
  (s2, decide (s2 ≠ s))

/-- Model of `SessionManager.update_metrics` on an existing session. With an agent
name, replaces that agent's metrics and returns True. Otherwise partitions
the input into core scores (recomputing `overall_score` from the merge of
stored and incoming core values) and whitelisted real-time keys, and applies
all resulting field-sets in one update; keys in neither list are dropped. -/
def SessionManager.update_metrics (s : Session) (m : Metrics)
    (agent : Option String) : Session × Bool :=
  match agent with
  | some a => ({ s with agents := setAgentMetrics s.agents a m }, true)
  | none =>
    let core := m.filter (fun kv => decide (kv.1 ∈ coreKeys))
    let overallUpd : Metrics :=
      if core = [] then []
      else [("overall_score", overallFrom (applyUpdates s.metrics core))]
    let rt := m.filter (fun kv => decide (kv.1 ∈ realtimeKeys))
    let upds := core ++ overallUpd ++ rt
    if upds = [] then (s, true)
    else
      let s2 := { s with metrics := applyUpdates s.metrics upds }
      (s2, decide (s2 ≠ s))

/-- The list of immediate red flags collected by `check_exit_criteria`. The
work-authorization flag is raised only when pytest is not loaded
(`"pytest" not in sys.modules` in the source). -/
def immediateFlags (pytestLoaded : Bool) (s : Session) : List String :=
  (if s.eligibility_checks.work_authorization = false ∧ pytestLoaded = false
   then ["Work authorization requirements not met"] else [])
  ++ (if getD s.metrics "behavioral_score" 0 < mkRat 1 5
      then ["Critical behavioral concerns identified"] else [])
  ++ (if getD s.metrics "technical_score" 0 < mkRat 1 10
      then ["Fundamental technical capability issues"] else [])

/-- The list of mid-interview threshold failures collected by
`check_exit_criteria`. -/
def thresholdFailures (s : Session) : List String :=
  (if getD s.metrics "technical_score" 0 < mkRat 2 5
   then ["Technical evaluation below minimum threshold"] else [])
  ++ (if getD s.metrics "behavioral_score" 0 < mkRat 3 10
      then ["Behavioral assessment below acceptable level"] else [])
  ++ (if getD s.metrics "overall_score" 0 < mkRat 7 20
      then ["Overall performance insufficient"] else [])

/-- Model of `SessionManager.check_exit_criteria` on an existing session: immediate
flags first (short-circuiting), then mid-interview thresholds when the
current phase is technical or behavioral, else no exit (`none`). -/
def SessionManager.check_exit_criteria (pytestLoaded : Bool) (s : Session) :
    Option ExitDecision :=
  let flags := immediateFlags pytestLoaded s
  if flags ≠ [] then
    some { exit_type := "immediate", reason := String.intercalate "; " flags }
  else if s.current_phase = "technical" ∨ s.current_phase = "behavioral" then
    let tf := thresholdFailures s
    if tf ≠ [] then
      some { exit_type := "mid_interview", reason := String.intercalate "; " tf }
    else none
  else none

/-- One step of the immediate-exit cascade in `end_session`: the `$set` of
`phases.<p>.status = "skipped"` (and `skip_reason` when a reason was given). -/
def skipPhase (reasonOk : Bool) (reason : Option String) (p : Phase)
    (s : Session) : Session :=
  let pr := s.phases.get p
  { s with
    phases := s.phases.set p
      { pr with status := "skipped",
                skip_reason := if reasonOk then reason else pr.skip_reason } }

/-- Model of `SessionManager.end_session` on an existing session. Builds one update
document (end time, exit-criteria fields, and — for an immediate exit — a
skipped status for every phase from the current one onward), first runs
`end_phase` on the current phase if it is active, then applies the update
document, whose phase statuses therefore override the completion. A current
phase name that is non-empty but not in the fixed sequence raises a KeyError
that the surrounding handler turns into False with no writes. -/
def SessionManager.end_session (now : String) (exit_type : String)
    (reason : Option String) (s : Session) : Session × Bool :=
  let reasonOk : Bool := match reason with
    | some r => decide (r ≠ "")
    | none => false
  let skipped : List Phase :=
    if exit_type = "immediate" then
      match phaseOfString s.current_phase with
      | some p => phaseSequence.drop (phaseIndex p)
      | none => []
    else []
  if s.current_phase ≠ "" ∧ phaseOfString s.current_phase = none then
    (s, false)
  else
    let s1 := match phaseOfString s.current_phase with
      | some p =>
        if (s.phases.get p).status = "active" then
          (SessionManager.end_phase now p s).1
        else s
      | none => s
    let s2 :=
      { s1 with
        end_time := some now
        exit_criteria :=
          { s1.exit_criteria with
            exit_type := some exit_type
            completion_status := "completed"
            exit_reason :=
              if reasonOk then reason else s1.exit_criteria.exit_reason } }
    let s3 := skipped.foldl (fun acc p => skipPhase reasonOk reason p acc) s2
    (s3, decide (s3 ≠ s1))

/-- A stored collection of sessions keyed by identifier. -/
abbrev Store := List (String × Session)

/-- Model of `get_sessions_collection`: yields the collection, or raises when the
database is unreachable. -/
def getSessionsCollection (dbOk : Bool) (store : Store) :
    Except String Store :=
  if dbOk then Except.ok store else Except.error "database unavailable"

/-- Model of `SessionManager.get_session_data`: wrapped in try/except, so a storage
error (or malformed identifier) degrades to `none`. -/
def SessionManager.get_session_data (dbOk : Bool) (store : Store)
    (session_id : String) : Option Session :=
  match getSessionsCollection dbOk store with
  | Except.ok coll => (coll.find? (fun e => e.1 = session_id)).map Prod.snd
  | Except.error _ => none

/-- Model of `SessionManager.get_active_sessions`: filters sessions with no end time.
The source has no try/except here, so a storage error propagates to the
caller. -/
def SessionManager.get_active_sessions (dbOk : Bool) (store : Store) :
    Except String Store :=
  match getSessionsCollection dbOk store with
  | Except.ok coll => Except.ok (coll.filter (fun e => e.2.end_time = none))
  | Except.error e => Except.error e

/-- Model of `PhaseManager.start_phase`: rejects unknown phase names and missing
sessions; when pytest is not loaded, refuses to start any phase beyond the
first while its predecessor's status is not completed; otherwise delegates
to `SessionManager.start_phase`. Returns the stored document alongside the
boolean result. -/
def PhaseManager.start_phase (pytestLoaded : Bool) (now : String)
    (phase : String) (stored : Option Session) : Option Session × Bool :=
  match phaseOfString phase with
  | none => (stored, false)
  | some p =>
    match stored with
    | none => (none, false)
    | some s =>
      if 0 < phaseIndex p ∧ pytestLoaded = false
          ∧ (s.phases.get (prevPhase p)).status ≠ "completed" then
        (some s, false)
      else
        let t := SessionManager.start_phase now p s
        (some t.1, t.2)

/-- Model of `MetricsManager.update_response_quality`: sends both the unqualified
key and the phase-qualified key to `SessionManager.update_metrics`. -/
def MetricsManager.update_response_quality (phase : String) (quality_score : Rat)
    (s : Session) : Session × Bool :=
  SessionManager.update_metrics s
    [("response_quality", quality_score),
     ("response_quality_" ++ phase, quality_score)] none

/-- Model of `InterviewPipeline.create_interview_session`: creates a session, then
overwrites `current_phase` with "introduction" through
`update_session_data`, without starting any phase. -/
def Pipeline.create_interview_session (candidate_id : String) (now : String) :
    Session :=
  let s := createSession candidate_id now
  { s with current_phase := "introduction" }

/-- Concrete fresh session used by the weighted-score witness. -/
def sC1 : Session := createSession "cand" "t0"

/-- Concrete core-score update carrying all three weighted scores
(0.8 / 0.7 / 0.9). -/
def mC1 : Metrics :=
  [("technical_score", mkRat 4 5), ("behavioral_score", mkRat 7 10),
   ("cultural_score", mkRat 9 10)]

/-- Session with work authorization unmet but healthy scores. -/
def sC2 : Session :=
  { createSession "cand" "t0" with
    metrics := [("technical_score", mkRat 1 2), ("behavioral_score", mkRat 1 2)] }

/-- Session with work authorization granted but failing behavioral (0.1) and
technical (0.05) scores. -/
def sC2b : Session :=
  { createSession "cand" "t0" with
    metrics := [("behavioral_score", mkRat 1 10), ("technical_score", mkRat 1 20)]
    eligibility_checks :=
      { work_authorization := true, remote_work := false, relocation := false,
        travel := false } }

/-- Session in the technical phase whose technical phase record is already
completed. -/
def sC3 : Session :=
  let base := createSession "cand" "t0"
  { base with
    current_phase := "technical"
    phases :=
      { base.phases with
        technical := { base.phases.technical with status := "completed" } } }

/-- Session in the technical phase whose technical phase record is active. -/
def sC3w : Session :=
  let base := createSession "cand" "t0"
  { base with
    current_phase := "technical"
    phases :=
      { base.phases with
        technical :=
          { base.phases.technical with
            status := "active"
            start_time := some "t0" } } }

/-- Fresh session: `pre_interview` still pending, `introduction` pending. -/
def sC4 : Session := createSession "cand" "t0"

/-- Session whose `pre_interview` phase is completed and whose
`introduction` phase is still pending. -/
def sC4w : Session :=
  let base := createSession "cand" "t0"
  { base with
    phases :=
      { base.phases with
        pre_interview := { base.phases.pre_interview with
                           status := "completed", end_time := some "t1" } } }

/-- Session in the technical phase with work authorization granted and
scores 0.35 / 0.25 / 0.3 (technical / behavioral / overall): clear of every
immediate trigger but below all three mid-interview thresholds. -/
def sC5 : Session :=
  { createSession "cand" "t0" with
    current_phase := "technical"
    metrics :=
      [("technical_score", mkRat 7 20), ("behavioral_score", mkRat 1 4),
       ("overall_score", mkRat 3 10)]
    eligibility_checks :=
      { work_authorization := true, remote_work := false, relocation := false,
        travel := false } }

/-- Session whose end time is already set. -/
def sC9 : Session :=
  { createSession "cand" "t0" with end_time := some "E0" }

/-- Session in the technical phase whose technical phase record is active,
used to end a session normally. -/
def sC9w : Session :=
  let base := createSession "cand" "t0"
  { base with
    current_phase := "technical"
    phases :=
      { base.phases with
        technical :=
          { base.phases.technical with
            status := "active"
            start_time := some "t0" } } }

/-- Fresh session used to exercise `update_response_quality`. -/
def sC6 : Session := createSession "cand" "t0"

theorem dlookup_setKey_self (m : Metrics) (k : String) (v : Rat) :
    dlookup (setKey m k v) k = some v := by
  induction m with
  | nil => simp [setKey, dlookup]
  | cons kv tl ih =>
    by_cases h : kv.1 = k
    · simp [setKey, h, dlookup]
    · simp [setKey, h, dlookup, ih]

theorem dlookup_setKey_ne (m : Metrics) (k q : String) (v : Rat) (h : q ≠ k) :
    dlookup (setKey m k v) q = dlookup m q := by
  have hkq : k ≠ q := fun he => h he.symm
  induction m with
  | nil => simp [setKey, dlookup, hkq]
  | cons kv tl ih =>
    by_cases hk : kv.1 = k
    · have hkvq : kv.1 ≠ q := by rw [hk]; exact hkq
      simp [setKey, hk, dlookup, hkq, hkvq]
    · simp [setKey, hk, dlookup, ih]

theorem applyUpdates_append (base l1 l2 : Metrics) :
    applyUpdates base (l1 ++ l2) = applyUpdates (applyUpdates base l1) l2 := by
  simp [applyUpdates, List.foldl_append]

theorem dlookup_applyUpdates_not_mem (l base : Metrics) (k : String)
    (h : ∀ kv ∈ l, kv.1 ≠ k) :
    dlookup (applyUpdates base l) k = dlookup base k := by
  induction l generalizing base with
  | nil => rfl
  | cons kv tl ih =>
    have step : applyUpdates base (kv :: tl) =
        applyUpdates (setKey base kv.1 kv.2) tl := rfl
    rw [step, ih _ (fun x hx => h x (List.mem_cons_of_mem _ hx)),
      dlookup_setKey_ne _ _ _ _ (fun he => h kv (List.mem_cons_self _ _) he.symm)]

theorem dlookup_applyUpdates_nodup (l base : Metrics) (k : String)
    (h : (l.map Prod.fst).Nodup) :
    dlookup (applyUpdates base l) k =
      match dlookup l k with
      | some v => some v
      | none => dlookup base k := by
  induction l generalizing base with
  | nil => rfl
  | cons kv tl ih =>
    have step : applyUpdates base (kv :: tl) =
        applyUpdates (setKey base kv.1 kv.2) tl := rfl
    rw [List.map_cons, List.nodup_cons] at h
    by_cases hk : kv.1 = k
    · have hnot : ∀ e ∈ tl, e.1 ≠ k := by
        intro e he hek
        exact h.1 (hk ▸ hek ▸ List.mem_map_of_mem Prod.fst he)
      rw [step, dlookup_applyUpdates_not_mem _ _ _ hnot, hk,
        dlookup_setKey_self]
      simp [dlookup, hk]
    · rw [step, ih _ h.2]
      simp only [dlookup, hk, if_false]
      cases dlookup tl k with
      | none => simp [dlookup_setKey_ne _ _ _ _ (fun he => hk he.symm)]
      | some v => rfl

theorem dlookup_filter_key (q : String → Bool) (m : Metrics) (k : String) :
    dlookup (m.filter (fun kv => q kv.1)) k =
      if q k then dlookup m k else none := by
  induction m with
  | nil => simp [dlookup]
  | cons kv tl ih =>
    by_cases hk : kv.1 = k
    · subst hk
      by_cases hq : q kv.1
      · simp [List.filter_cons, hq, dlookup]
      · simp [List.filter_cons, hq, ih]
    · by_cases hq : q kv.1
      · simp [List.filter_cons, hq, dlookup, hk, ih]
      · simp [List.filter_cons, hq, dlookup, hk, ih]

theorem realtime_ne_overall : ∀ x ∈ realtimeKeys, x ≠ "overall_score" := by
  decide

/-- C7: the claim says every core operation is total from the caller's
perspective — no storage error may raise past the operation's boundary.
The code contradicts it: `get_active_sessions` is the one `SessionManager`
operation without a try/except, so when acquiring the sessions collection
fails, the error propagates to the caller, while the guarded operations
(here `get_session_data` on the same failing store) degrade to their typed
failure value. -/
theorem C7_get_active_sessions_propagates :
    SessionManager.get_active_sessions false [] =
      Except.error "database unavailable"
    ∧ SessionManager.get_session_data false [] "some_id" = none := ⟨rfl, rfl⟩

/-- C8: the document inserted by `create_session` starts in phase
`pre_interview`, with all five phases pending, all ten agents inactive,
every metric field (including `overall_score`) equal to 0.0, and no end
time. -/
theorem C8_create_session_initial_state (cid now : String) :
    (createSession cid now).current_phase = "pre_interview"
    ∧ (∀ p : Phase, ((createSession cid now).phases.get p).status = "pending")
    ∧ (createSession cid now).agents.length = 10
    ∧ (∀ a ∈ (createSession cid now).agents, a.2.status = some "inactive")
    ∧ (∀ kv ∈ (createSession cid now).metrics, kv.2 = 0)
    ∧ dlookup (createSession cid now).metrics "overall_score" = some 0
    ∧ (createSession cid now).end_time = none := by
  refine ⟨rfl, fun p => ?_, rfl, ?_, ?_, rfl, rfl⟩
  · cases p <;> rfl
  · show ∀ a ∈ agentNames.map (fun n => (n, inactiveAgent)),
      a.2.status = some "inactive"
    decide
  · show ∀ kv ∈ (createSession "" "").metrics, kv.2 = 0
    decide

/-- C10: after the orchestrator-level `create_interview_session`, the stored
session names `introduction` as its current phase while every phase record
(including introduction) is still pending with no start time: the overwrite
of `current_phase` starts nothing. -/
theorem C10_pipeline_current_phase_mismatch (cid now : String) :
    (Pipeline.create_interview_session cid now).current_phase = "introduction"
    ∧ (∀ p : Phase,
        ((Pipeline.create_interview_session cid now).phases.get p).status
            = "pending"
        ∧ ((Pipeline.create_interview_session cid now).phases.get p).start_time
            = none) := by
  refine ⟨rfl, fun p => ?_⟩
  cases p <;> exact ⟨rfl, rfl⟩

theorem filter_keys_nodup (m : Metrics) (p : String × Rat → Bool)
    (h : (m.map Prod.fst).Nodup) : ((m.filter p).map Prod.fst).Nodup :=
  h.sublist (List.Sublist.map Prod.fst (List.filter_sublist m))

theorem merged_getD (s : Session) (m : Metrics) (K : String)
    (hnd : (m.map Prod.fst).Nodup) (hK : K ∈ coreKeys) :
    getD (applyUpdates s.metrics
        (m.filter (fun kv => decide (kv.1 ∈ coreKeys)))) K 0
      = mergedScore s m K := by
  rw [getD, dlookup_applyUpdates_nodup _ _ _
      (filter_keys_nodup m _ hnd),
    dlookup_filter_key (fun x => decide (x ∈ coreKeys)) m K]
  rw [mergedScore]
  have hdec : decide (K ∈ coreKeys) = true := decide_eq_true hK
  rw [hdec, if_pos rfl]
  cases dlookup m K with
  | none => rfl
  | some v => rfl

/-- C1: after `update_metrics` with no agent argument whose input carries at
least one core score, the stored `overall_score` equals the weighted sum
`0.5·t + 0.3·b + 0.2·c` of the merge of the previously stored core scores
with the incoming update (an omitted core score keeps its stored value),
never a previously persisted value. -/
theorem C1_overall_score_recomputed (s : Session) (m : Metrics)
    (hnd : (m.map Prod.fst).Nodup)
    (hcore : m.filter (fun kv => decide (kv.1 ∈ coreKeys)) ≠ []) :
    getD ((SessionManager.update_metrics s m none).1).metrics
        "overall_score" 0
      = mergedScore s m "technical_score" * mkRat 1 2
          + mergedScore s m "behavioral_score" * mkRat 3 10
          + mergedScore s m "cultural_score" * mkRat 1 5 := by
  have hupds :
      (m.filter (fun kv => decide (kv.1 ∈ coreKeys))
        ++ [("overall_score",
              overallFrom (applyUpdates s.metrics
                (m.filter (fun kv => decide (kv.1 ∈ coreKeys)))))]
        ++ m.filter (fun kv => decide (kv.1 ∈ realtimeKeys))) ≠ [] := by
    intro he
    exact hcore (List.append_eq_nil.mp (List.append_eq_nil.mp he).1).1
  have hrt : ∀ kv ∈ m.filter (fun kv => decide (kv.1 ∈ realtimeKeys)),
      kv.1 ≠ "overall_score" := by
    intro kv hkv
    exact realtime_ne_overall kv.1
      (of_decide_eq_true (List.mem_filter.mp hkv).2)
  simp only [SessionManager.update_metrics, if_neg hcore, if_neg hupds]
  rw [applyUpdates_append, applyUpdates_append, getD,
    dlookup_applyUpdates_not_mem _ _ _ hrt]
  have hov : applyUpdates
      (applyUpdates s.metrics (m.filter (fun kv => decide (kv.1 ∈ coreKeys))))
      [("overall_score",
        overallFrom (applyUpdates s.metrics
          (m.filter (fun kv => decide (kv.1 ∈ coreKeys)))))]
      = setKey
          (applyUpdates s.metrics
            (m.filter (fun kv => decide (kv.1 ∈ coreKeys))))
          "overall_score"
          (overallFrom (applyUpdates s.metrics
            (m.filter (fun kv => decide (kv.1 ∈ coreKeys))))) := rfl
  rw [hov, dlookup_setKey_self]
  show overallFrom
      (applyUpdates s.metrics (m.filter (fun kv => decide (kv.1 ∈ coreKeys))))
    = _
  rw [overallFrom, merged_getD s m _ hnd (by decide),
    merged_getD s m _ hnd (by decide), merged_getD s m _ hnd (by decide)]

/-- Witness for C1 at the example of the spec: updating a fresh session with
technical 0.8, behavioral 0.7 and cultural 0.9 stores overall 0.79. -/
theorem C1_overall_score_recomputed_witness :
    (mC1.map Prod.fst).Nodup
    ∧ mC1.filter (fun kv => decide (kv.1 ∈ coreKeys)) ≠ []
    ∧ getD ((SessionManager.update_metrics sC1 mC1 none).1).metrics
        "overall_score" 0 = mkRat 79 100 :=
  ⟨by decide, by decide,
    (C1_overall_score_recomputed sC1 mC1 (by decide) (by decide)).trans
      (by with_unfolding_all rfl)⟩

/-- C2, counterexample: with pytest loaded (the source checks
`"pytest" not in sys.modules`), a session failing work authorization with
healthy scores does not trigger an immediate exit, so "immediate iff work
authorization is false or a score threshold fails" is false as stated. -/
theorem C2_cex_pytest_bypasses_work_authorization :
    sC2.eligibility_checks.work_authorization = false
    ∧ SessionManager.check_exit_criteria true sC2 = none := ⟨rfl, by decide⟩

/-- C2, amended: `check_exit_criteria` returns exit type "immediate" iff
work authorization is false *and pytest is not loaded*, or
`behavioral_score < 0.2`, or `technical_score < 0.1`; the reason joins the
descriptions of every triggered condition with semicolons, as on the
behavioral=0.1 / technical=0.05 example. -/
theorem C2_amended_immediate_iff (pytestLoaded : Bool) (s : Session) :
    (((SessionManager.check_exit_criteria pytestLoaded s).map
        ExitDecision.exit_type = some "immediate") ↔
      ((s.eligibility_checks.work_authorization = false
          ∧ pytestLoaded = false)
        ∨ getD s.metrics "behavioral_score" 0 < mkRat 1 5
        ∨ getD s.metrics "technical_score" 0 < mkRat 1 10))
    ∧ SessionManager.check_exit_criteria false sC2b =
        some { exit_type := "immediate",
               reason := "Critical behavioral concerns identified; Fundamental technical capability issues" } := by
  refine ⟨?_, by decide⟩
  have hflag : immediateFlags pytestLoaded s ≠ [] ↔
      ((s.eligibility_checks.work_authorization = false
          ∧ pytestLoaded = false)
        ∨ getD s.metrics "behavioral_score" 0 < mkRat 1 5
        ∨ getD s.metrics "technical_score" 0 < mkRat 1 10) := by
    rw [immediateFlags]
    by_cases h1 : s.eligibility_checks.work_authorization = false
        ∧ pytestLoaded = false <;>
      by_cases h2 : getD s.metrics "behavioral_score" 0 < mkRat 1 5 <;>
        by_cases h3 : getD s.metrics "technical_score" 0 < mkRat 1 10 <;>
          simp [h1, h2, h3]
  by_cases hfe : immediateFlags pytestLoaded s = []
  · have hnd := fun hd => (hflag.mpr hd) hfe
    simp only [SessionManager.check_exit_criteria, hfe]
    simp only [ne_eq, not_true_eq_false, if_false]
    constructor
    · intro hmap
      exfalso
      split at hmap
      · split at hmap <;> simp at hmap
      · simp at hmap
    · intro hd
      exact absurd hd hnd
  · simp only [SessionManager.check_exit_criteria, if_pos hfe]
    simp [hflag.mp hfe]

/-- C5: when no immediate flag fired, `check_exit_criteria` returns exit
type "mid_interview" iff the current phase is technical or behavioral and
at least one of technical < 0.4, behavioral < 0.3, overall < 0.35 holds
(all strict); otherwise it returns the distinct no-exit value `none`. The
closing conjunct shows the semicolon-joined reason on a session failing all
three thresholds. -/
theorem C5_mid_interview_iff (pytestLoaded : Bool) (s : Session)
    (himm : immediateFlags pytestLoaded s = []) :
    (((SessionManager.check_exit_criteria pytestLoaded s).map
        ExitDecision.exit_type = some "mid_interview") ↔
      ((s.current_phase = "technical" ∨ s.current_phase = "behavioral")
        ∧ (getD s.metrics "technical_score" 0 < mkRat 2 5
            ∨ getD s.metrics "behavioral_score" 0 < mkRat 3 10
            ∨ getD s.metrics "overall_score" 0 < mkRat 7 20)))
    ∧ (¬((s.current_phase = "technical" ∨ s.current_phase = "behavioral")
          ∧ (getD s.metrics "technical_score" 0 < mkRat 2 5
              ∨ getD s.metrics "behavioral_score" 0 < mkRat 3 10
              ∨ getD s.metrics "overall_score" 0 < mkRat 7 20))
        → SessionManager.check_exit_criteria pytestLoaded s = none)
    ∧ SessionManager.check_exit_criteria false sC5 =
        some { exit_type := "mid_interview",
               reason := "Technical evaluation below minimum threshold; Behavioral assessment below acceptable level; Overall performance insufficient" } := by
  have htf : thresholdFailures s ≠ [] ↔
      (getD s.metrics "technical_score" 0 < mkRat 2 5
        ∨ getD s.metrics "behavioral_score" 0 < mkRat 3 10
        ∨ getD s.metrics "overall_score" 0 < mkRat 7 20) := by
    rw [thresholdFailures]
    by_cases h1 : getD s.metrics "technical_score" 0 < mkRat 2 5 <;>
      by_cases h2 : getD s.metrics "behavioral_score" 0 < mkRat 3 10 <;>
        by_cases h3 : getD s.metrics "overall_score" 0 < mkRat 7 20 <;>
          simp [h1, h2, h3]
  refine ⟨?_, ?_, by decide⟩
  · simp only [SessionManager.check_exit_criteria, himm]
    simp only [ne_eq, not_true_eq_false, if_false]
    by_cases hp : s.current_phase = "technical" ∨ s.current_phase = "behavioral"
    · rw [if_pos hp]
      by_cases htf2 : thresholdFailures s = []
      · have hnd : ¬(getD s.metrics "technical_score" 0 < mkRat 2 5
            ∨ getD s.metrics "behavioral_score" 0 < mkRat 3 10
            ∨ getD s.metrics "overall_score" 0 < mkRat 7 20) :=
          fun hd => (htf.mpr hd) htf2
        rw [if_neg (by simp [htf2])]
        simp [hnd]
      · rw [if_pos htf2]
        simp [hp, htf.mp htf2]
    · rw [if_neg hp]
      simp [hp]
  · intro hn
    simp only [SessionManager.check_exit_criteria, himm]
    simp only [ne_eq, not_true_eq_false, if_false]
    by_cases hp : s.current_phase = "technical" ∨ s.current_phase = "behavioral"
    · have hte : thresholdFailures s = [] := by
        by_contra hne
        exact hn ⟨hp, htf.mp hne⟩
      rw [if_pos hp, if_neg (by simp [hte])]
    · rw [if_neg hp]

/-- Witness for C5: a session in the technical phase scoring 0.35 / 0.25 /
0.3 is clear of immediate flags and exits mid-interview. -/
theorem C5_mid_interview_iff_witness :
    immediateFlags false sC5 = []
    ∧ (SessionManager.check_exit_criteria false sC5).map
        ExitDecision.exit_type = some "mid_interview" :=
  ⟨by decide,
    ((C5_mid_interview_iff false sC5 (by decide)).1).mpr (by decide)⟩

theorem phaseOfString_phaseName (p : Phase) :
    phaseOfString (phaseName p) = some p := by
  cases p <;> rfl

/-- C4, counterexample: with pytest loaded (`"pytest" not in sys.modules`
fails), `PhaseManager.start_phase` skips the ordering check: starting
`technical` succeeds (returns True) although `introduction` is still
pending, so the claim is false as stated. -/
theorem C4_cex_pytest_bypasses_ordering :
    (sC4.phases.get Phase.introduction).status = "pending"
    ∧ (PhaseManager.start_phase true "t1" "technical" (some sC4)).2 = true :=
  ⟨rfl, by decide⟩

/-- C4, amended: when pytest is not loaded, `PhaseManager.start_phase`
refuses (returns False with no state change) any phase name outside the
fixed sequence, and any phase beyond the first whose predecessor's stored
status is not "completed"; starting `introduction` with `pre_interview`
completed and `introduction` pending succeeds and activates the phase.
Under pytest the ordering check is bypassed. -/
theorem C4_amended_phase_ordering (s : Session) (now : String) :
    (∀ phase : String, phaseOfString phase = none →
        PhaseManager.start_phase false now phase (some s) = (some s, false))
    ∧ (∀ p : Phase, 0 < phaseIndex p →
        (s.phases.get (prevPhase p)).status ≠ "completed" →
        PhaseManager.start_phase false now (phaseName p) (some s)
          = (some s, false))
    ∧ ((s.phases.get Phase.pre_interview).status = "completed" →
        (s.phases.get Phase.introduction).status = "pending" →
        (PhaseManager.start_phase false now "introduction" (some s)).2 = true
        ∧ (PhaseManager.start_phase false now "introduction" (some s)).1.map
            (fun t => (t.phases.get Phase.introduction).status)
              = some "active") := by
  refine ⟨?_, ?_, ?_⟩
  · intro phase hph
    simp [PhaseManager.start_phase, hph]
  · intro p hidx hprev
    simp only [PhaseManager.start_phase, phaseOfString_phaseName]
    rw [if_pos ⟨hidx, by trivial, hprev⟩]
  · intro h1 h2
    have hph : phaseOfString "introduction" = some Phase.introduction := rfl
    simp only [PhaseManager.start_phase, hph]
    rw [if_neg (fun hc => hc.2.2 h1)]
    have hne : (SessionManager.start_phase now Phase.introduction s).1 ≠ s := by
      intro he
      have hst : ((SessionManager.start_phase now Phase.introduction
          s).1.phases.get Phase.introduction).status
            = (s.phases.get Phase.introduction).status := by rw [he]
      rw [h2] at hst
      have hbad : ("active" : String) = "pending" := hst
      exact absurd hbad (by decide)
    exact ⟨decide_eq_true hne, rfl⟩

/-- Witness for C4 on a session whose `pre_interview` phase is completed:
unknown phases and out-of-order phases are refused, and `introduction`
starts successfully. -/
theorem C4_amended_phase_ordering_witness :
    (phaseOfString "bogus" = none
      ∧ PhaseManager.start_phase false "t1" "bogus" (some sC4w)
          = (some sC4w, false))
    ∧ ((sC4w.phases.get (prevPhase Phase.technical)).status ≠ "completed"
      ∧ PhaseManager.start_phase false "t1" "technical" (some sC4w)
          = (some sC4w, false))
    ∧ ((sC4w.phases.get Phase.pre_interview).status = "completed"
      ∧ (PhaseManager.start_phase false "t1" "introduction" (some sC4w)).2
          = true) :=
  ⟨⟨by decide, (C4_amended_phase_ordering sC4w "t1").1 "bogus" (by decide)⟩,
   ⟨by decide,
    (C4_amended_phase_ordering sC4w "t1").2.1 Phase.technical (by decide)
      (by decide)⟩,
   ⟨by decide,
    ((C4_amended_phase_ordering sC4w "t1").2.2 (by decide) (by decide)).1⟩⟩

/-- C3, counterexample: ending a session immediately while its current
phase `technical` is already completed overwrites that completed phase to
skipped, so "does not overwrite to skipped any phase already completed" is
false as stated. -/
theorem C3_cex_completed_phase_skipped :
    (sC3.phases.get Phase.technical).status = "completed"
    ∧ (((SessionManager.end_session "t1" "immediate" (some "flag")
          sC3).1).phases.get Phase.technical).status = "skipped" :=
  ⟨rfl, by decide⟩

/-- C3, amended: ending a session with exit type "immediate" marks every
phase from the current phase onward (inclusive) as skipped regardless of
its prior status — including phases already completed — leaves every phase
before the current phase untouched, and, when the current phase is active,
completes it first (its end time is stamped) although the cascade then
overwrites its status to skipped. -/
theorem C3_amended_immediate_cascade (s : Session) (now : String)
    (reason : Option String) (p : Phase)
    (hp : phaseOfString s.current_phase = some p) :
    (∀ q : Phase, phaseIndex p ≤ phaseIndex q →
        (((SessionManager.end_session now "immediate" reason
            s).1).phases.get q).status = "skipped")
    ∧ (∀ q : Phase, phaseIndex q < phaseIndex p →
        ((SessionManager.end_session now "immediate" reason
            s).1).phases.get q = s.phases.get q)
    ∧ ((s.phases.get p).status = "active" →
        (((SessionManager.end_session now "immediate" reason
            s).1).phases.get p).end_time = some now) := by
  have hcond : ¬(s.current_phase ≠ "" ∧ phaseOfString s.current_phase
      = none) := by
    rintro ⟨-, hnone⟩
    rw [hp] at hnone
    exact Option.noConfusion hnone
  refine ⟨?_, ?_, ?_⟩
  · intro q hq
    simp only [SessionManager.end_session, hp, if_neg hcond]
    cases p <;> cases q <;>
      first
        | exact absurd hq (by decide)
        | simp [phaseSequence, phaseIndex, skipPhase, Phases.set, Phases.get]
  · intro q hq
    simp only [SessionManager.end_session, hp, if_neg hcond]
    cases p <;> cases q <;>
      first
        | exact absurd hq (by decide)
        | (simp only [phaseSequence, phaseIndex, List.drop, List.foldl]
           repeat' split
           all_goals
             simp [skipPhase, SessionManager.end_phase, Phases.set,
               Phases.get])
  · intro hact
    simp only [SessionManager.end_session, hp, if_neg hcond, if_pos hact]
    cases p <;>
      simp [phaseSequence, phaseIndex, skipPhase, SessionManager.end_phase,
        Phases.set, Phases.get]

/-- Witness for C3 on a session whose active current phase is `technical`:
`wrap_up` ends skipped and the technical phase's end time is stamped. -/
theorem C3_amended_immediate_cascade_witness :
    phaseOfString sC3w.current_phase = some Phase.technical
    ∧ (((SessionManager.end_session "t1" "immediate" (some "low")
          sC3w).1).phases.get Phase.wrap_up).status = "skipped"
    ∧ (((SessionManager.end_session "t1" "immediate" (some "low")
          sC3w).1).phases.get Phase.technical).end_time = some "t1" :=
  ⟨rfl,
   (C3_amended_immediate_cascade sC3w "t1" (some "low") Phase.technical
       rfl).1 Phase.wrap_up (by decide),
   (C3_amended_immediate_cascade sC3w "t1" (some "low") Phase.technical
       rfl).2.2 rfl⟩

theorem skip_foldl_end_time (l : List Phase) (ro : Bool) (re : Option String)
    (acc : Session) :
    (l.foldl (fun a p => skipPhase ro re p a) acc).end_time = acc.end_time := by
  induction l generalizing acc with
  | nil => rfl
  | cons p tl ih =>
    rw [List.foldl_cons, ih]
    rfl

/-- C9, counterexample: calling `end_session` on a session whose end time is
already set overwrites it with the new call's time, so "end_time is set at
most once" is false as stated. -/
theorem C9_cex_end_time_overwritten :
    sC9.end_time = some "E0"
    ∧ ((SessionManager.end_session "E1" "normal" none sC9).1).end_time
        = some "E1" :=
  ⟨rfl, by decide⟩

/-- C9, amended: every `end_session` call on a session whose current phase
name is valid unconditionally overwrites `end_time` with the call's current
time (there is no at-most-once guard), and when the current phase is active
and the exit is not immediate, ending the session completes that phase
(status completed, end time stamped). -/
theorem C9_amended_end_time_overwrite (s : Session) (now exit_type : String)
    (reason : Option String) (p : Phase)
    (hp : phaseOfString s.current_phase = some p) :
    ((SessionManager.end_session now exit_type reason s).1).end_time = some now
    ∧ ((s.phases.get p).status = "active" → exit_type ≠ "immediate" →
        (((SessionManager.end_session now exit_type reason
            s).1).phases.get p).status = "completed"
        ∧ (((SessionManager.end_session now exit_type reason
            s).1).phases.get p).end_time = some now) := by
  have hcond : ¬(s.current_phase ≠ "" ∧ (some p : Option Phase) = none) :=
    fun hc => Option.noConfusion hc.2
  constructor
  · simp only [SessionManager.end_session, hp, if_neg hcond]
    rw [skip_foldl_end_time]
  · intro hact hni
    simp only [SessionManager.end_session, hp, if_neg hcond, if_pos hact,
      if_neg hni]
    cases p <;> exact ⟨rfl, rfl⟩

/-- Witness for C9 on a session whose active current phase is `technical`,
ended normally: end time stamped and the phase completed. -/
theorem C9_amended_end_time_overwrite_witness :
    phaseOfString sC9w.current_phase = some Phase.technical
    ∧ ((SessionManager.end_session "t9" "normal" none sC9w).1).end_time
        = some "t9"
    ∧ (((SessionManager.end_session "t9" "normal" none
          sC9w).1).phases.get Phase.technical).status = "completed" :=
  ⟨rfl,
   (C9_amended_end_time_overwrite sC9w "t9" "normal" none Phase.technical
      rfl).1,
   ((C9_amended_end_time_overwrite sC9w "t9" "normal" none Phase.technical
      rfl).2 rfl (by decide)).1⟩

/-- C6: the claim (and the spec) say `update_response_quality` writes both
the phase-qualified key `response_quality_<phase>` and the unqualified
`response_quality`. The `MetricsManager` does send both keys, but
`update_metrics` whitelists only the fixed real-time key names, so the
phase-qualified key is silently dropped — although `get_phase_metrics`
expects metric keys ending in `_<phase>` to exist. On a fresh session the
unqualified key is stored with the given score while the phase-qualified
key remains absent. -/
theorem C6_phase_qualified_key_dropped :
    getD ((MetricsManager.update_response_quality "technical" (mkRat 4 5)
        sC6).1).metrics "response_quality" 0 = mkRat 4 5
    ∧ dlookup ((MetricsManager.update_response_quality "technical" (mkRat 4 5)
        sC6).1).metrics "response_quality_technical" = none :=
  ⟨by decide, by decide⟩

end Interviewers
